import Mathlib

/-!
Verification of the Remind bot's scheduling and adaptive-polling logic,
shallow-embedded from `bot.py`, `database.py` and `reminder_manager.py`.

Pure date arithmetic models Python `datetime` values in the reminder's own
timezone; stateful pieces (the APScheduler job registry, the Google-Sheets
store, the polling controller state) are modelled by explicit state passing.
-/

namespace Remind

/-- A timezone-local date-time at second granularity, standing for a Python
`datetime` in one fixed timezone.  Every `replace` in the source zeroes
`second`/`microsecond`; we keep seconds so that comparisons against
`datetime.now(tz)` stay faithful (microseconds are below model granularity). -/
structure DT where
  year : Nat
  month : Nat
  day : Nat
  hour : Nat
  minute : Nat
  second : Nat
deriving DecidableEq, Repr

/-- `calendar.monthrange(y, m)[1]`: the number of days of month `m` in year
`y`, with the Gregorian leap rule. -/
def daysInMonth (y m : Nat) : Nat :=
  if m = 2 then
    if (y % 4 = 0 ∧ y % 100 ≠ 0) ∨ y % 400 = 0 then 29 else 28
  else if m = 4 ∨ m = 6 ∨ m = 9 ∨ m = 11 then 30 else 31

/-- Linearisation of a local date-time.  For field values in calendar range it
orders exactly as Python's lexicographic `datetime` comparison (both operands
always live in the same timezone in the source). -/
def DT.lin (t : DT) : Nat :=
  ((((t.year * 13 + t.month) * 32 + t.day) * 24 + t.hour) * 60 + t.minute) * 60 + t.second

/-- Calendar-range validity of the fields of a `DT`. -/
def DT.Valid (t : DT) : Prop :=
  1 ≤ t.month ∧ t.month ≤ 12 ∧ 1 ≤ t.day ∧ t.day ≤ daysInMonth t.year t.month ∧
    t.hour < 24 ∧ t.minute < 60 ∧ t.second < 60

instance (t : DT) : Decidable t.Valid := by
  unfold DT.Valid; infer_instance

/-- Python `dt.replace(day=d, hour=h, minute=mi, second=0, microsecond=0)`:
returns `none` exactly when the constructor would raise `ValueError`. -/
def DT.replaceDayTime (t : DT) (d h mi : Nat) : Option DT :=
  if 1 ≤ d ∧ d ≤ daysInMonth t.year t.month ∧ h < 24 ∧ mi < 60 then
    some { t with day := d, hour := h, minute := mi, second := 0 }
  else none

/-- Python `dt.replace(day=d)`: `none` when the day is invalid for the
date-time's current month. -/
def DT.replaceDay (t : DT) (d : Nat) : Option DT :=
  if 1 ≤ d ∧ d ≤ daysInMonth t.year t.month then
    some { t with day := d }
  else none

/-- The calendar day before `t` (time-of-day unchanged), used to evaluate
`timedelta(days=1)` subtraction. -/
def DT.prevDay (t : DT) : DT :=
  if t.day > 1 then { t with day := t.day - 1 }
  else if t.month > 1 then { t with month := t.month - 1, day := daysInMonth t.year (t.month - 1) }
  else { t with year := t.year - 1, month := 12, day := 31 }

/-- Python `dt - timedelta(days=n)` (time-of-day unchanged; all subtractions
in the source happen inside one timezone). -/
def DT.subDays (t : DT) : Nat → DT
  | 0 => t
  | n + 1 => (t.subDays n).prevDay

/-- Seconds elapsed since local midnight. -/
def DT.secOfDay (t : DT) : Nat :=
  t.hour * 3600 + t.minute * 60 + t.second

/-- Python `datetime.weekday()` (Monday = 0 … Sunday = 6), via Zeller's
congruence on the Gregorian calendar. -/
def DT.weekday (t : DT) : Nat :=
  let y := if t.month ≤ 2 then t.year - 1 else t.year
  let m := if t.month ≤ 2 then t.month + 12 else t.month
  let K := y % 100
  let J := y / 100
  let h := (t.day + (13 * (m + 1)) / 5 + K + K / 4 + J / 4 + 5 * J) % 7
  (h + 5) % 7

/-! ## Configuration constants (fixed at process start, `bot.py` lines 94-101) -/

/-- `self.active_start_hm = (7, 30)`. -/
def active_start_hm : Nat × Nat := (7, 30)

/-- `self.active_end_hm = (7, 40)`. -/
def active_end_hm : Nat × Nat := (7, 40)

/-- `self.notify_hm = (7, 35)`: the fixed daily notification time. -/
def notify_hm : Nat × Nat := (7, 35)

/-! ## Timezone resolution (`pytz`) -/

/-- Model of the fragment of the IANA database that `pytz` recognises; the
claims only ever need that some names resolve and others do not. -/
def ianaKnown (s : String) : Bool :=
  s ∈ ["Asia/Ho_Chi_Minh", "UTC", "America/New_York", "Europe/London", "Asia/Tokyo"]

/-- `pytz.timezone(name)`: the timezone itself carries no data our claims
observe, so a resolved timezone is represented by its name; an unrecognised
name raises `pytz.UnknownTimeZoneError`. -/
def pytzTimezone (s : String) : Except String String :=
  if ianaKnown s then .ok s else .error "UnknownTimeZoneError"

/-! ## Data model: reminders and the store (`database.py`) -/

/-- One row of the `Reminders` sheet, as the dict returned by
`get_all_records` (we type the fields the core reads). -/
structure Reminder where
  id : Nat
  user_id : Int
  text : String
  day : Option Nat
  time : String
  frequency : String
  timezone : String
  active : Bool
  lastSent : Option String
deriving DecidableEq, Repr

/-- A field-update dict as passed to `Database.update_reminder`; call sites
only ever update these fields. -/
structure Updates where
  text : Option String
  day : Option Nat
  time : Option String
  frequency : Option String
  active : Option Bool
  lastSent : Option String
deriving DecidableEq, Repr

/-- The empty update dict. -/
def Updates.nothing : Updates := ⟨none, none, none, none, none, none⟩

/-- Write the present fields of `u` into row `r`
(`update_reminder`'s per-header cell writes). -/
def applyUpdates (r : Reminder) (u : Updates) : Reminder :=
  { r with
    text := u.text.getD r.text
    day := match u.day with | some d => some d | none => r.day
    time := u.time.getD r.time
    frequency := u.frequency.getD r.frequency
    active := u.active.getD r.active
    lastSent := match u.lastSent with | some s => some s | none => r.lastSent }

/-- The `Reminders` sheet: an ordered list of rows. -/
abbrev Store := List Reminder

/-- `Database.get_reminder`: first row whose id matches. -/
def dbGetReminder (store : Store) (rid : Nat) : Option Reminder :=
  store.find? (fun r => r.id == rid)

/-- `Database.update_reminder`: find the first row with this id and write the
given fields into it; `false` when no row matches. -/
def dbUpdateReminder : Store → Nat → Updates → Store × Bool
  | [], _, _ => ([], false)
  | r :: rs, rid, u =>
    if r.id = rid then (applyUpdates r u :: rs, true)
    else
      let (rs', b) := dbUpdateReminder rs rid u
      (r :: rs', b)

/-- `Database.delete_reminder`: delete the first row with this id;
`false` when no row matches. -/
def dbDeleteReminder : Store → Nat → Store × Bool
  | [], _ => ([], false)
  | r :: rs, rid =>
    if r.id = rid then (rs, true)
    else
      let (rs', b) := dbDeleteReminder rs rid
      (r :: rs', b)

/-- `Database._get_next_reminder_id`: one more than the largest id present. -/
def dbNextReminderId (store : Store) : Nat :=
  (store.foldl (fun acc r => max acc r.id) 0) + 1

/-- Creation-time data collected by the conversation layer
(`reminder_data` dict built in `confirm_handler`). -/
structure ReminderData where
  text : String
  day : Option Nat
  time : String
  frequency : String
  timezone : String
deriving DecidableEq, Repr

/-- `Database.create_reminder`: append a fresh active row; no field
validation happens here or in `ReminderManager.create_reminder`. -/
def dbCreateReminder (store : Store) (uid : Int) (d : ReminderData) : Store × Nat :=
  let rid := dbNextReminderId store
  (store ++ [⟨rid, uid, d.text, d.day, d.time, d.frequency, d.timezone, true, none⟩], rid)

/-- `Database.get_all_active_reminders`: the rows whose active flag is set. -/
def dbGetAllActiveReminders (store : Store) : List Reminder :=
  store.filter (fun r => r.active)

/-! ## ReminderManager (`reminder_manager.py`) -/

/-- An ASCII decimal digit (`0`-`9`). -/
def isAsciiDigit (c : Char) : Bool :=
  48 ≤ c.toNat ∧ c.toNat ≤ 57

/-- The characters Python's `int()` strips around a numeric literal
(`Py_UNICODE_ISSPACE`: ASCII whitespace, the information separators, NEL,
and the Unicode space/line/paragraph separators). -/
def pyIsSpace (c : Char) : Bool :=
  c.toNat ∈ [0x9, 0xA, 0xB, 0xC, 0xD, 0x1C, 0x1D, 0x1E, 0x1F, 0x20, 0x85,
    0xA0, 0x1680, 0x2000, 0x2001, 0x2002, 0x2003, 0x2004, 0x2005, 0x2006,
    0x2007, 0x2008, 0x2009, 0x200A, 0x2028, 0x2029, 0x202F, 0x205F, 0x3000]

/-- Strip leading and trailing whitespace, as `int()` does. -/
def pyStrip (cs : List Char) : List Char :=
  ((cs.dropWhile pyIsSpace).reverse.dropWhile pyIsSpace).reverse

/-- Base codepoints of the decimal-digit (Nd) blocks of the Unicode table
other than ASCII; each block is a run of ten codepoints whose digit value
is the offset from the base.  Python's `int()` accepts any such digit. -/
def ndBases : List Nat :=
  [0x660, 0x6F0, 0x7C0, 0x966, 0x9E6, 0xA66, 0xAE6, 0xB66, 0xBE6, 0xC66,
    0xCE6, 0xD66, 0xDE6, 0xE50, 0xED0, 0xF20, 0x1040, 0x1090, 0x17E0,
    0x1810, 0x1946, 0x19D0, 0x1A80, 0x1A90, 0x1B50, 0x1BB0, 0x1C40, 0x1C50,
    0xA620, 0xA8D0, 0xA900, 0xA9D0, 0xA9F0, 0xAA50, 0xABF0, 0xFF10,
    0x104A0, 0x10D30, 0x11066, 0x110F0, 0x11136, 0x111D0, 0x112F0, 0x11450,
    0x114D0, 0x11650, 0x116C0, 0x11730, 0x118E0, 0x11950, 0x11C50, 0x11D50,
    0x11DA0, 0x11F50, 0x16A60, 0x16AC0, 0x16B50, 0x1D7CE, 0x1D7D8, 0x1D7E2,
    0x1D7EC, 0x1D7F6, 0x1E140, 0x1E2F0, 0x1E4F0, 0x1E950, 0x1FBF0]

/-- The decimal value Python assigns to a character when converting a
string with `int()`: an ASCII digit or any Unicode Nd digit. -/
def pyDigitVal (c : Char) : Option Nat :=
  if isAsciiDigit c then some (c.toNat - 48)
  else
    match ndBases.find? (fun b => b ≤ c.toNat ∧ c.toNat < b + 10) with
    | some b => some (c.toNat - b)
    | none => none

/-- Python's `digitpart` after its first digit: further digits, with a
single underscore allowed only between two digits (PEP 515). -/
def pyDigitsAux (acc : Nat) : List Char → Option Nat
  | [] => some acc
  | c :: rest =>
    if c = '_' then
      match rest with
      | [] => none
      | c2 :: rest2 =>
        match pyDigitVal c2 with
        | some v => pyDigitsAux (acc * 10 + v) rest2
        | none => none
    else
      match pyDigitVal c with
      | some v => pyDigitsAux (acc * 10 + v) rest
      | none => none

/-- Python's `digitpart`: a digit followed by digits with optional single
underscores in between. -/
def pyDigitPart : List Char → Option Nat
  | [] => none
  | c :: rest =>
    match pyDigitVal c with
    | some v => pyDigitsAux v rest
    | none => none

/-- Python `int(s)` on a decimal string: strip surrounding whitespace, an
optional sign, then a `digitpart`. -/
def pyIntParse (s : String) : Option Int :=
  match pyStrip s.data with
  | '-' :: rest => (pyDigitPart rest).map (fun n => -(n : Int))
  | '+' :: rest => (pyDigitPart rest).map (fun n => (n : Int))
  | cs => (pyDigitPart cs).map (fun n => (n : Int))

/-- Python `str.split(sep)` for a one-character separator. -/
def pySplitAux (sep : Char) (acc : List Char) : List Char → List String
  | [] => [String.mk acc.reverse]
  | c :: rest =>
    if c = sep then String.mk acc.reverse :: pySplitAux sep [] rest
    else pySplitAux sep (c :: acc) rest

/-- Python `str.split(sep)` for a one-character separator. -/
def pySplit (sep : Char) (cs : List Char) : List String :=
  pySplitAux sep [] cs

/-- Numeric value of a plain ASCII digit string. -/
def digitsToNat (cs : List Char) : Nat :=
  cs.foldl (fun acc c => acc * 10 + (c.toNat - 48)) 0

/-- `ReminderManager._validate_time`: split on `:`, require exactly two
parts, parse both with `int()`, check the `0..23` / `0..59` ranges (parse
failures raise `ValueError` and are caught, yielding `False`). -/
def validateTime (timeStr : String) : Bool :=
  match pySplit ':' timeStr.data with
  | [hs, ms] =>
    match pyIntParse hs, pyIntParse ms with
    | some hour, some minute =>
      decide (0 ≤ hour ∧ hour ≤ 23 ∧ 0 ≤ minute ∧ minute ≤ 59)
    | _, _ => false
  | _ => false

/-- The claim's literal reading of "of the form hour:minute with
0 ≤ hour ≤ 23 and 0 ≤ minute ≤ 59": two plain decimal digit strings
around a single colon.  `_validate_time` accepts strictly more than this:
Python's `int()` also tolerates a sign, surrounding whitespace, underscore
digit separators and non-ASCII decimal digits. -/
def SpecTimeOk (timeStr : String) : Prop :=
  match pySplit ':' timeStr.data with
  | [hs, ms] =>
    hs.data ≠ [] ∧ hs.data.all isAsciiDigit = true ∧
    ms.data ≠ [] ∧ ms.data.all isAsciiDigit = true ∧
    digitsToNat hs.data ≤ 23 ∧ digitsToNat ms.data ≤ 59
  | _ => False

instance (t : String) : Decidable (SpecTimeOk t) := by
  unfold SpecTimeOk
  split <;> infer_instance

/-- `ReminderManager.edit_reminder`: ownership check, then time/frequency
validation (`monthly` is absent from the allowed list), then the store
update; returns the new store plus the reported success flag.  Note the
source returns `True` without consulting `update_reminder`'s result. -/
def managerEditReminder (store : Store) (uid : Int) (rid : Nat) (updates : Updates) :
    Store × Bool :=
  match dbGetReminder store rid with
  | none => (store, false)
  | some r =>
    if r.user_id ≠ uid then (store, false)
    else if (match updates.time with
             | some t => !validateTime t
             | none => false) then (store, false)
    else if (match updates.frequency with
             | some f => !(f ∈ ["once", "daily", "weekly"])
             | none => false) then (store, false)
    else ((dbUpdateReminder store rid updates).1, true)

/-- `ReminderManager.delete_reminder`: ownership check, then delete. -/
def managerDeleteReminder (store : Store) (uid : Int) (rid : Nat) : Store × Bool :=
  match dbGetReminder store rid with
  | none => (store, false)
  | some r =>
    if r.user_id ≠ uid then (store, false)
    else dbDeleteReminder store rid

/-- `ReminderManager.toggle_reminder`: ownership check, then flip `active`. -/
def managerToggleReminder (store : Store) (uid : Int) (rid : Nat) : Store × Bool :=
  match dbGetReminder store rid with
  | none => (store, false)
  | some r =>
    if r.user_id ≠ uid then (store, false)
    else dbUpdateReminder store rid { Updates.nothing with active := some (!r.active) }

/-! ## Job registry (APScheduler, as used by `bot.py`) -/

/-- A trigger specification: an absolute instant with a timezone
(`DateTrigger`) or a recurrence rule (`CronTrigger`). -/
inductive Trigger where
  | date (runDt : DT) (tz : String)
  | cron (hour minute : Nat) (dayOfWeek : Option Nat) (dayOfMonth : Option Nat) (tz : String)
deriving DecidableEq, Repr

/-- A registered job: its string id and its trigger.  The callback is always
`send_reminder_job` with the offset recoverable from the id, so we do not
duplicate the arguments here. -/
structure Job where
  key : String
  trigger : Trigger
deriving DecidableEq, Repr

/-- The scheduler's job table. -/
abbrev Registry := List Job

/-- `scheduler.remove_job(k)` (the callers wrap it in `try/except pass`,
so absence is a no-op). -/
def removeJob (reg : Registry) (k : String) : Registry :=
  reg.filter (fun j => j.key != k)

/-- `scheduler.add_job(..., id=k, replace_existing=True)`: atomically
replace any job with the same id. -/
def addJobReplace (reg : Registry) (j : Job) : Registry :=
  removeJob reg j.key ++ [j]

/-- Python `str.startswith`, on the character lists. -/
def strStartsWith (s pre : String) : Bool :=
  pre.data.isPrefixOf s.data

/-- The key prefix of all jobs of one reminder: `reminder_{id}_`. -/
def reminderKeyBase (rid : Nat) : String :=
  "reminder_" ++ toString rid ++ "_"

/-- The job id `reminder_{id}_dminus{offset}`. -/
def reminderJobId (rid offset : Nat) : String :=
  reminderKeyBase rid ++ ("dminus" ++ toString offset)

/-! ## Trigger engine and reminder scheduler (`bot.py`) -/

/-- `_compute_next_month_event` (`bot.py` 195-215): next occurrence of the
reminder's day-of-month at `notify_hm`, in the reminder's timezone, clamped
to the current month's last day, rolled to the next month (with December to
January year carry) when not strictly in the future.  `now` is
`datetime.now(user_tz)`.  The timezone lookup at line 197 has no fallback:
an unknown name raises out of this function; similarly the final
`run_dt.replace(year=..., month=..., day=...)` raises `ValueError` when the
rolled day is invalid (only reachable for a stored day of 0). -/
def computeNextMonthEvent (r : Reminder) (now : DT) : Except String DT :=
  match pytzTimezone r.timezone with
  | .error e => .error e
  | .ok _ =>
    let hour := notify_hm.1
    let minute := notify_hm.2
    let target_day := r.day.getD now.day
    let run_dt :=
      match now.replaceDayTime target_day hour minute with
      | some d => d
      | none =>
        -- except ValueError: clamp to the current month's last day
        { now with day := daysInMonth now.year now.month,
                   hour := hour, minute := minute, second := 0 }
    if run_dt.lin ≤ now.lin then
      let year := if run_dt.month = 12 then run_dt.year + 1 else run_dt.year
      let month := if run_dt.month = 12 then 1 else run_dt.month + 1
      let last_day := daysInMonth year month
      let day := min target_day last_day
      if 1 ≤ day ∧ day ≤ daysInMonth year month then
        .ok { run_dt with year := year, month := month, day := day }
      else .error "ValueError"
    else .ok run_dt

/-- `_schedule_offset_job` (`bot.py` 217-234): remove any existing job for
this reminder/offset, then install a `DateTrigger` job at `run_dt`.  The
timezone lookup at line 224 has no fallback, so an unknown name raises
(callers catch it and skip). -/
def scheduleOffsetJob (reg : Registry) (r : Reminder) (run_dt : DT) (offset : Nat) :
    Except String Registry :=
  let job_base := reminderJobId r.id offset
  let reg := removeJob reg job_base
  match pytzTimezone r.timezone with
  | .error e => .error e
  | .ok tz => .ok (addJobReplace reg ⟨job_base, .date run_dt tz⟩)

/-- The `once` branch's date computation (`bot.py` 784-806), run inside the
`try` that catches `UnknownTimeZoneError` and `ValueError` at line 844:
`none` means that `try` block raised and the reminder got no jobs.
Note that `now.replace(day=target_day, ...)` (line 791) raises, uncaught
locally, when the target day does not exist in the current month, and that
`run_date.replace(month=now.month + 1)` (line 799) raises when the current
day does not exist in the next month — before the inner `try` at line 801
can clamp anything. -/
def computeOnceRunDate (r : Reminder) (now : DT) : Option DT :=
  let hour := notify_hm.1
  let minute := notify_hm.2
  let target_day := r.day.getD now.day
  match now.replaceDayTime target_day hour minute with
  | none => none
  | some run_date0 =>
    if run_date0.lin ≤ now.lin then
      -- move to next month
      let y := if now.month = 12 then now.year + 1 else now.year
      let m := if now.month = 12 then 1 else now.month + 1
      if run_date0.day ≤ daysInMonth y m then
        let run_date1 : DT := { run_date0 with year := y, month := m }
        -- inner try: run_date.replace(day=target_day), clamped on ValueError
        match run_date1.replaceDay target_day with
        | some run_date2 => some run_date2
        | none => some { run_date1 with day := daysInMonth run_date1.year run_date1.month }
      else
        none
    else
      some run_date0

/-- The `once` branch of `_schedule_single_reminder` (`bot.py` 782-846):
compute the run date, then install the three `DateTrigger` jobs at offsets
0, 1 and 2 — but each `DateTrigger(run_date=..., timezone=user_timezone)`
uses the raw stored timezone name, so an unknown name raises into the
`except` at line 844 and no job is installed. -/
def scheduleOnce (reg : Registry) (r : Reminder) (now : DT) : Registry :=
  match computeOnceRunDate r now with
  | none => reg
  | some run_date =>
    match pytzTimezone r.timezone with
    | .error _ => reg
    | .ok tz =>
      let reg := addJobReplace reg ⟨reminderJobId r.id 0, .date run_date tz⟩
      let reg := addJobReplace reg ⟨reminderJobId r.id 1, .date (run_date.subDays 1) tz⟩
      addJobReplace reg ⟨reminderJobId r.id 2, .date (run_date.subDays 2) tz⟩

/-- The `monthly` branch of `_schedule_single_reminder` (`bot.py` 871-894):
a recurring cron job at offset 0, then — inside a `try` whose `except`
merely logs — the two pre-due one-shot jobs for the next occurrence. -/
def scheduleMonthly (reg : Registry) (r : Reminder) (now : DT) (tzResolved : String) :
    Registry :=
  let reg := addJobReplace reg
    ⟨reminderJobId r.id 0, .cron notify_hm.1 notify_hm.2 none r.day tzResolved⟩
  match computeNextMonthEvent r now with
  | .error _ => reg
  | .ok next_event =>
    match scheduleOffsetJob reg r (next_event.subDays 1) 1 with
    | .error _ => reg
    | .ok reg1 =>
      match scheduleOffsetJob reg1 r (next_event.subDays 2) 2 with
      | .error _ => reg1
      | .ok reg2 => reg2

/-- `_schedule_single_reminder` (`bot.py` 757-900): remove the three offset
jobs, resolve the timezone with the `Asia/Ho_Chi_Minh` fallback (lines
770-774), then dispatch on the frequency.  `now` is the current local time
in the resolved timezone. -/
def scheduleSingleReminder (reg : Registry) (r : Reminder) (now : DT) : Registry :=
  let jid := fun o => reminderJobId r.id o
  let reg := removeJob (removeJob (removeJob reg (jid 0)) (jid 1)) (jid 2)
  let tzResolved := if ianaKnown r.timezone then r.timezone else "Asia/Ho_Chi_Minh"
  if r.frequency = "once" then
    scheduleOnce reg r now
  else if r.frequency = "daily" then
    addJobReplace reg ⟨jid 0, .cron notify_hm.1 notify_hm.2 none none tzResolved⟩
  else if r.frequency = "weekly" then
    addJobReplace reg ⟨jid 0, .cron notify_hm.1 notify_hm.2 (some 0) none tzResolved⟩
  else if r.frequency = "monthly" then
    scheduleMonthly reg r now tzResolved
  else
    reg

/-- Python `str.lower()` (character-wise; the frequency strings involved are
plain ASCII). -/
def pyLower (s : String) : String := ⟨s.data.map Char.toLower⟩

/-- `_reminder_due_today` (`bot.py` 159-184): the due-today rule used by the
daily status broadcast.  The timezone lookup here does fall back to the
default; the monthly/once branch calls `_compute_next_month_event` inside a
`try` whose `except` returns `False`. -/
def reminderDueToday (r : Reminder) (now : DT) : Bool :=
  let frequency := pyLower r.frequency
  if frequency = "daily" then true
  else if frequency = "weekly" then now.weekday == 0
  else if frequency = "monthly" ∨ frequency = "once" then
    match computeNextMonthEvent r now with
    | .error _ => false
    | .ok next_event =>
      let today := (now.year, now.month, now.day)
      let d0 := (next_event.year, next_event.month, next_event.day)
      let e1 := next_event.subDays 1
      let e2 := next_event.subDays 2
      today == d0 ∨ today == (e1.year, e1.month, e1.day) ∨
        today == (e2.year, e2.month, e2.day)
  else false

/-! ## Firing callback (`send_reminder_job`, `bot.py` 647-705) -/

/-- The in-process state a firing mutates: the store and the job registry
(the send-log append is not observed by any claim). -/
structure BotState where
  store : Store
  registry : Registry
deriving Repr

/-- `send_reminder_job`: compose and send the message (`sendOk` tells
whether `bot.send_message` succeeded; on `TelegramError` everything after
the send is skipped).  On success: log the send and update `last_sent`;
for a `once` reminder fired at offset 0, delete it from the store and
cancel every job whose id starts with `reminder_{id}_`; for a `monthly`
reminder, recompute the next occurrence and re-install this offset's job
at `next_event - offset` days (each of the last two steps in its own
`try` whose `except` merely logs). -/
def sendReminderJob (st : BotState) (r : Reminder) (offset : Nat) (sendOk : Bool)
    (now : DT) : BotState :=
  if !sendOk then st
  else
    -- db.log_reminder_sent: append to the Logs sheet, update last_sent
    let st : BotState :=
      { st with store := (dbUpdateReminder st.store r.id
          { Updates.nothing with lastSent := some "now" }).1 }
    let st : BotState :=
      if r.frequency = "once" ∧ offset = 0 then
        { store := (dbDeleteReminder st.store r.id).1,
          registry := st.registry.filter
            (fun j => !strStartsWith j.key (reminderKeyBase r.id)) }
      else st
    if r.frequency = "monthly" then
      match computeNextMonthEvent r now with
      | .error _ => st
      | .ok next_event =>
        match scheduleOffsetJob st.registry r (next_event.subDays offset) offset with
        | .error _ => st
        | .ok reg' => { st with registry := reg' }
    else st

/-! ## Active-window controller (`bot.py` 109-298, 947-978) -/

/-- Wall-clock test against the fixed daily window (`_is_active_hours`,
`bot.py` 109-118): `start <= now < end` where `start`/`end` are today's
date at `active_start_hm`/`active_end_hm`; with equal dates this is the
seconds-of-day comparison.  `debug_always_on` short-circuits to `true`. -/
def inActiveWindow (now : DT) : Bool :=
  decide (active_start_hm.1 * 3600 + active_start_hm.2 * 60 ≤ now.secOfDay ∧
    now.secOfDay < active_end_hm.1 * 3600 + active_end_hm.2 * 60)

/-- `_is_active_hours` including the `DEBUG_ALWAYS_ON` override. -/
def isActiveHours (debugAlwaysOn : Bool) (now : DT) : Bool :=
  if debugAlwaysOn then true else inActiveWindow now

/-- The polling-controller state the claims observe: whether
`app.updater.running`, and the probe's `_peek_offset` cursor.
(The inactivity task handle and `_last_activity_vn` only feed timer
re-arming, which no claim inspects.) -/
structure PollState where
  running : Bool
  peekOffset : Option Nat
deriving DecidableEq, Repr

/-- `_stop_polling_if_needed` (`bot.py` 251-263), called with reason
`"schedule"` by the window-end clock job and `"timeout"` by the
inactivity countdown: under the polling lock, a no-op when the loop is
already stopped, a refusal when the wall clock is inside the active
window, otherwise stop the receive loop. -/
def stopPollingIfNeeded (debugAlwaysOn : Bool) (st : PollState) (now : DT)
    (reason : String) : PollState :=
  let _ := reason
  if !st.running then st
  else if isActiveHours debugAlwaysOn now then st
  else { st with running := false }

/-- `_start_polling_if_needed` (`bot.py` 236-249): under the polling lock,
a no-op when already running, otherwise open the receive loop.  Also
returns whether a SLEEPING to ACTIVE transition happened. -/
def startPollingIfNeeded (st : PollState) : PollState × Bool :=
  if st.running then (st, false)
  else ({ st with running := true }, true)

/-- `bot.get_updates(limit=1, timeout=0[, offset=o])`, non-consuming:
the pending updates with id at least `o` (all of them when no offset is
sent), truncated to one item.  `world` is the server's pending update
queue, in increasing id order. -/
def getUpdatesPeek (world : List Nat) (off : Option Nat) : List Nat :=
  let eligible :=
    match off with
    | none => world
    | some o => world.filter (fun i => o ≤ i)
  match eligible with
  | [] => []
  | x :: _ => [x]

/-- `_peek_updates_job` (`bot.py` 947-978): outside active hours and with
the receive loop stopped, peek (under the peek lock) starting just after
the stored cursor — Python truthiness: the `offset` argument is only sent
when `_peek_offset` is neither `None` nor `0`.  If items were observed,
advance the cursor to the newest observed id, then wake the loop and
register activity.  Returns the new state, the observed items, and the
number of SLEEPING to ACTIVE transitions performed. -/
def peekUpdatesJob (debugAlwaysOn : Bool) (st : PollState) (world : List Nat)
    (now : DT) : PollState × List Nat × Nat :=
  if isActiveHours debugAlwaysOn now then (st, [], 0)
  else if st.running then (st, [], 0)
  else
    let offArg : Option Nat :=
      match st.peekOffset with
      | some k => if k = 0 then none else some (k + 1)
      | none => none
    let updates := getUpdatesPeek world offArg
    match updates.getLast? with
    | none => (st, [], 0)
    | some lastId =>
      let st1 : PollState := { st with peekOffset := some lastId }
      let (st2, woke) := startPollingIfNeeded st1
      (st2, updates, if woke then 1 else 0)

/-! ## Helper lemmas -/

theorem daysInMonth_pos (y m : Nat) : 1 ≤ daysInMonth y m := by
  unfold daysInMonth
  split
  · split <;> omega
  · split <;> omega

theorem daysInMonth_le (y m : Nat) : daysInMonth y m ≤ 31 := by
  unfold daysInMonth
  split
  · split <;> omega
  · split <;> omega

theorem strAppend_left_cancel {a b c : String} (h : a ++ b = a ++ c) : b = c := by
  apply String.ext
  have hd : (a ++ b).data = (a ++ c).data := congrArg String.data h
  rw [String.data_append, String.data_append] at hd
  exact List.append_cancel_left hd

theorem strStartsWith_append (a b : String) : strStartsWith (a ++ b) a = true := by
  unfold strStartsWith
  rw [String.data_append]
  simp

theorem jobId_startsWith (rid o : Nat) :
    strStartsWith (reminderJobId rid o) (reminderKeyBase rid) = true := by
  unfold reminderJobId
  exact strStartsWith_append _ _

theorem jobId_ne_01 (rid : Nat) : reminderJobId rid 0 ≠ reminderJobId rid 1 := by
  intro h
  exact absurd (strAppend_left_cancel h) (by decide)

theorem jobId_ne_02 (rid : Nat) : reminderJobId rid 0 ≠ reminderJobId rid 2 := by
  intro h
  exact absurd (strAppend_left_cancel h) (by decide)

theorem jobId_ne_12 (rid : Nat) : reminderJobId rid 1 ≠ reminderJobId rid 2 := by
  intro h
  exact absurd (strAppend_left_cancel h) (by decide)

theorem mem_removeJob {reg : Registry} {k : String} {x : Job}
    (hx : x ∈ removeJob reg k) : x ∈ reg := by
  unfold removeJob at hx
  exact (List.mem_filter.mp hx).1

theorem removeJob_key_ne {reg : Registry} {k : String} {x : Job}
    (hx : x ∈ removeJob reg k) : x.key ≠ k := by
  unfold removeJob at hx
  have := (List.mem_filter.mp hx).2
  simpa using this

theorem removeJob_eq_of_fresh {reg : Registry} {k : String}
    (h : ∀ x ∈ reg, x.key ≠ k) : removeJob reg k = reg := by
  unfold removeJob
  apply List.filter_eq_self.mpr
  intro a ha
  simpa using h a ha

theorem filter_key_removeJob (reg : Registry) (k : String) :
    (removeJob reg k).filter (fun j => j.key == k) = [] := by
  apply List.filter_eq_nil_iff.mpr
  intro a ha hk
  exact removeJob_key_ne ha (by simpa using hk)

theorem filter_key_addJobReplace (reg : Registry) (j : Job) :
    (addJobReplace reg j).filter (fun x => x.key == j.key) = [j] := by
  unfold addJobReplace
  rw [List.filter_append, filter_key_removeJob]
  simp

theorem filter_add_fresh {reg : Registry} {j : Job} (p : Job → Bool)
    (hfresh : ∀ x ∈ reg, x.key ≠ j.key) (hpj : p j = true) :
    (addJobReplace reg j).filter p = reg.filter p ++ [j] := by
  unfold addJobReplace
  rw [removeJob_eq_of_fresh hfresh, List.filter_append]
  simp [hpj]

/-- The month-rollover step of the trigger engine produces a strictly later
instant than any instant of the current month (lexicographic order on
calendar-bounded fields). -/
theorem lin_lt_next_month {now e : DT}
    (hy : e.year = (if now.month = 12 then now.year + 1 else now.year))
    (hm : e.month = (if now.month = 12 then 1 else now.month + 1))
    (hday31 : now.day ≤ 31)
    (hh : now.hour < 24) (hmi : now.minute < 60) (hs : now.second < 60)
    (hed : e.day ≤ 31) (heh : e.hour < 24) (hemi : e.minute < 60) (hes : e.second < 60) :
    now.lin < e.lin := by
  simp only [DT.lin]
  by_cases h12 : now.month = 12 <;> simp [h12] at hy hm <;> omega

/-- With a resolvable timezone, a positive stored day-of-month and a valid
clock reading, `_compute_next_month_event` returns normally and its result
is strictly in the future. -/
theorem computeNextMonthEvent_ok {r : Reminder} {now : DT}
    (htz : ianaKnown r.timezone = true)
    (hday : ∀ d, r.day = some d → 1 ≤ d)
    (hval : now.Valid) :
    ∃ e, computeNextMonthEvent r now = Except.ok e ∧ now.lin < e.lin := by
  obtain ⟨hm1, hm2, hd1, hd2, hh, hmi, hs⟩ := hval
  have hday31 : now.day ≤ 31 := le_trans hd2 (daysInMonth_le _ _)
  have htarget : 1 ≤ r.day.getD now.day := by
    cases hrd : r.day with
    | none => simpa using hd1
    | some d => simpa using hday d hrd
  unfold computeNextMonthEvent
  simp only [pytzTimezone, htz, if_true, notify_hm]
  cases hrep : now.replaceDayTime (r.day.getD now.day) 7 35 with
  | none =>
    dsimp only
    split
    · rw [if_pos ⟨Nat.le_min.mpr ⟨htarget, daysInMonth_pos _ _⟩, Nat.min_le_right _ _⟩]
      refine ⟨_, rfl, ?_⟩
      exact lin_lt_next_month rfl rfl hday31 hh hmi hs
        (le_trans (Nat.min_le_right _ _) (daysInMonth_le _ _))
        (by dsimp only; omega) (by dsimp only; omega) (by dsimp only; omega)
    · next hn => exact ⟨_, rfl, by omega⟩
  | some rd =>
    unfold DT.replaceDayTime at hrep
    split at hrep
    · next hc =>
      injection hrep with hrd
      subst hrd
      dsimp only
      split
      · rw [if_pos ⟨Nat.le_min.mpr ⟨htarget, daysInMonth_pos _ _⟩, Nat.min_le_right _ _⟩]
        refine ⟨_, rfl, ?_⟩
        exact lin_lt_next_month rfl rfl hday31 hh hmi hs
          (le_trans (Nat.min_le_right _ _) (daysInMonth_le _ _))
          (by dsimp only; omega) (by dsimp only; omega) (by dsimp only; omega)
      · next hn => exact ⟨_, rfl, by omega⟩
    · exact absurd hrep (by simp)

theorem pyDigitVal_ascii {c : Char} (h : isAsciiDigit c = true) :
    pyDigitVal c = some (c.toNat - 48) := by
  unfold pyDigitVal
  rw [if_pos h]

theorem isAsciiDigit_not_space {c : Char} (h : isAsciiDigit c = true) :
    pyIsSpace c = false := by
  have hb : 48 ≤ c.toNat ∧ c.toNat ≤ 57 := by simpa [isAsciiDigit] using h
  simp only [pyIsSpace, List.mem_cons, List.not_mem_nil, or_false,
    decide_eq_false_iff_not]
  omega

theorem pyDigitsAux_all_digits :
    ∀ (cs : List Char) (acc : Nat), cs.all isAsciiDigit = true →
      pyDigitsAux acc cs =
        some (cs.foldl (fun a c => a * 10 + (c.toNat - 48)) acc) := by
  intro cs
  induction cs with
  | nil => intro acc _; rfl
  | cons c rest ih =>
    intro acc h
    rw [List.all_cons, Bool.and_eq_true] at h
    obtain ⟨hc, hr⟩ := h
    have hnu : ¬(c = '_') := by
      intro he
      rw [he] at hc
      exact absurd hc (by decide)
    unfold pyDigitsAux
    rw [if_neg hnu, pyDigitVal_ascii hc]
    dsimp only
    rw [ih _ hr, List.foldl_cons]

theorem pyDigitPart_all_digits {cs : List Char} (hne : cs ≠ [])
    (h : cs.all isAsciiDigit = true) :
    pyDigitPart cs = some (digitsToNat cs) := by
  cases cs with
  | nil => exact absurd rfl hne
  | cons c rest =>
    rw [List.all_cons, Bool.and_eq_true] at h
    obtain ⟨hc, hr⟩ := h
    unfold pyDigitPart
    dsimp only
    rw [pyDigitVal_ascii hc]
    dsimp only
    rw [pyDigitsAux_all_digits rest _ hr]
    unfold digitsToNat
    rw [List.foldl_cons]
    have hz : (0 : Nat) * 10 + (c.toNat - 48) = c.toNat - 48 := by omega
    rw [hz]

theorem pyStrip_all_digits {cs : List Char} (h : cs.all isAsciiDigit = true) :
    pyStrip cs = cs := by
  have key : ∀ l : List Char, l.all isAsciiDigit = true →
      l.dropWhile pyIsSpace = l := by
    intro l hl
    cases l with
    | nil => rfl
    | cons c rest =>
      rw [List.all_cons, Bool.and_eq_true] at hl
      rw [List.dropWhile_cons_of_neg (by simp [isAsciiDigit_not_space hl.1])]
  unfold pyStrip
  rw [key cs h, key _ (by rw [List.all_reverse]; exact h), List.reverse_reverse]

theorem pyIntParse_all_digits {s : String} (hne : s.data ≠ [])
    (h : s.data.all isAsciiDigit = true) :
    pyIntParse s = some ((digitsToNat s.data : Nat) : Int) := by
  unfold pyIntParse
  rw [pyStrip_all_digits h]
  cases hd : s.data with
  | nil => exact absurd hd hne
  | cons c rest =>
    rw [hd] at h
    rw [List.all_cons, Bool.and_eq_true] at h
    obtain ⟨hc, hr⟩ := h
    have hall : (c :: rest).all isAsciiDigit = true := by
      rw [List.all_cons, Bool.and_eq_true]
      exact ⟨hc, hr⟩
    split
    · next r heq =>
      injection heq with h1 h2
      rw [h1] at hc
      exact absurd hc (by decide)
    · next r heq =>
      injection heq with h1 h2
      rw [h1] at hc
      exact absurd hc (by decide)
    · next =>
      rw [pyDigitPart_all_digits (by simp) hall]
      rfl

theorem clean_key_ne {reg : Registry} {rid : Nat} {x : Job}
    (hclean : ∀ j ∈ reg, strStartsWith j.key (reminderKeyBase rid) = false)
    (hx : x ∈ reg) (o : Nat) : x.key ≠ reminderJobId rid o := by
  intro he
  have hc := hclean x hx
  rw [he, jobId_startsWith] at hc
  cases hc

theorem mem_addJobReplace {reg : Registry} {j x : Job}
    (hx : x ∈ addJobReplace reg j) : x ∈ reg ∨ x = j := by
  unfold addJobReplace at hx
  rcases List.mem_append.mp hx with h | h
  · exact Or.inl (mem_removeJob h)
  · simp at h
    exact Or.inr h

theorem filter_clean_nil {reg : Registry} {rid : Nat}
    (hclean : ∀ j ∈ reg, strStartsWith j.key (reminderKeyBase rid) = false) :
    reg.filter (fun j => strStartsWith j.key (reminderKeyBase rid)) = [] :=
  List.filter_eq_nil_iff.mpr (fun a ha => by simp [hclean a ha])

/-- Installing the three offset jobs of one reminder into a registry holding
none of its keys leaves exactly three jobs with its key prefix. -/
theorem count_three_adds (reg : Registry) (rid : Nat) (t0 t1 t2 : Trigger)
    (hclean : ∀ j ∈ reg, strStartsWith j.key (reminderKeyBase rid) = false) :
    ((addJobReplace (addJobReplace (addJobReplace reg ⟨reminderJobId rid 0, t0⟩)
        ⟨reminderJobId rid 1, t1⟩) ⟨reminderJobId rid 2, t2⟩).filter
      (fun j => strStartsWith j.key (reminderKeyBase rid))).length = 3 := by
  have hm1 : ∀ x ∈ addJobReplace reg ⟨reminderJobId rid 0, t0⟩,
      x.key ≠ reminderJobId rid 1 := by
    intro x hx
    rcases mem_addJobReplace hx with h | rfl
    · exact clean_key_ne hclean h 1
    · exact jobId_ne_01 rid
  have hm2 : ∀ x ∈ addJobReplace (addJobReplace reg ⟨reminderJobId rid 0, t0⟩)
      ⟨reminderJobId rid 1, t1⟩, x.key ≠ reminderJobId rid 2 := by
    intro x hx
    rcases mem_addJobReplace hx with h | rfl
    · rcases mem_addJobReplace h with h2 | rfl
      · exact clean_key_ne hclean h2 2
      · exact jobId_ne_02 rid
    · exact jobId_ne_12 rid
  rw [filter_add_fresh _ hm2 (jobId_startsWith rid 2),
    filter_add_fresh _ hm1 (jobId_startsWith rid 1),
    filter_add_fresh _ (fun x hx => clean_key_ne hclean hx 0) (jobId_startsWith rid 0),
    filter_clean_nil hclean]
  simp

/-- Updating one field of the (at most unique) row with a given id and then
deleting that row leaves no row with the id behind
(`log_reminder_sent` followed by `delete_reminder`). -/
theorem store_update_delete_id_ne {rid : Nat} (u : Updates) :
    ∀ store : Store, store.countP (fun x => x.id == rid) ≤ 1 →
      ∀ x ∈ (dbDeleteReminder (dbUpdateReminder store rid u).1 rid).1, x.id ≠ rid := by
  intro store
  induction store with
  | nil =>
    intro _ x hx
    simp [dbUpdateReminder, dbDeleteReminder] at hx
  | cons r rs ih =>
    intro h x hx
    by_cases hr : r.id = rid
    · have hcount : List.countP (fun x => x.id == rid) rs = 0 := by
        rw [List.countP_cons_of_pos _ _ (by simpa using hr)] at h
        omega
      unfold dbUpdateReminder at hx
      rw [if_pos hr] at hx
      dsimp only at hx
      unfold dbDeleteReminder at hx
      rw [if_pos (show (applyUpdates r u).id = rid from hr)] at hx
      dsimp only at hx
      intro hxe
      exact (List.countP_eq_zero.mp hcount x hx) (by simpa using hxe)
    · have hcount : List.countP (fun x => x.id == rid) rs ≤ 1 := by
        rw [List.countP_cons_of_neg _ _ (by simpa using hr)] at h
        exact h
      unfold dbUpdateReminder at hx
      rw [if_neg hr] at hx
      rcases hp : dbUpdateReminder rs rid u with ⟨rs1, b1⟩
      rw [hp] at hx
      dsimp only at hx
      unfold dbDeleteReminder at hx
      rw [if_neg hr] at hx
      rcases hq : dbDeleteReminder rs1 rid with ⟨rs2, b2⟩
      rw [hq] at hx
      dsimp only at hx
      rcases List.mem_cons.mp hx with rfl | hx2
      · exact hr
      · exact ih hcount x (by rw [hp]; dsimp only; rw [hq]; exact hx2)

theorem getLast_getUpdatesPeek_mem {world : List Nat} {off : Option Nat} {i : Nat}
    (h : (getUpdatesPeek world off).getLast? = some i) : i ∈ world := by
  unfold getUpdatesPeek at h
  rcases off with _ | o
  · dsimp only at h
    cases world with
    | nil => simp at h
    | cons x xs =>
      simp at h
      subst h
      exact List.mem_cons_self _ _
  · dsimp only at h
    rcases hE : world.filter (fun i => o ≤ i) with _ | ⟨x, xs⟩
    · rw [hE] at h
      simp at h
    · rw [hE] at h
      simp at h
      subst h
      have hx : x ∈ world.filter (fun i => o ≤ i) := by
        rw [hE]
        exact List.mem_cons_self _ _
      exact (List.mem_filter.mp hx).1

/-! ## Claims -/

/-- C1 (corrected): firing any offset of a `monthly` reminder (with a
resolvable timezone and a positive stored day) leaves exactly one job
installed for that offset, re-installed at the recomputed next occurrence
minus the offset days; for offset 0 that next-fire instant is strictly later
than the instant that just fired.  (For offsets 1 and 2 the strictly-later
part of the claim fails, see the counterexample: the recomputed occurrence
is still the upcoming one, so the re-installed instant equals the fired
instant.) -/
theorem claim_C1 (st : BotState) (r : Reminder) (offset : Nat) (firedAt now : DT)
    (hfreq : r.frequency = "monthly") (htz : ianaKnown r.timezone = true)
    (hday : ∀ d, r.day = some d → 1 ≤ d) (hval : now.Valid)
    (hfired : firedAt.lin ≤ now.lin) :
    ∃ e, computeNextMonthEvent r now = Except.ok e ∧
      (sendReminderJob st r offset true now).registry.filter
          (fun j => j.key == reminderJobId r.id offset) =
        [⟨reminderJobId r.id offset, .date (e.subDays offset) r.timezone⟩] ∧
      (offset = 0 → firedAt.lin < (e.subDays offset).lin) := by
  obtain ⟨e, he, hlt⟩ := computeNextMonthEvent_ok htz hday hval
  refine ⟨e, he, ?_, ?_⟩
  · have hreg : (sendReminderJob st r offset true now).registry =
        addJobReplace (removeJob st.registry (reminderJobId r.id offset))
          ⟨reminderJobId r.id offset, .date (e.subDays offset) r.timezone⟩ := by
      unfold sendReminderJob scheduleOffsetJob
      rw [hfreq]
      simp [he, pytzTimezone, htz]
    rw [hreg]
    exact filter_key_addJobReplace (removeJob st.registry (reminderJobId r.id offset))
      ⟨reminderJobId r.id offset, .date (e.subDays offset) r.timezone⟩
  · intro h0
    subst h0
    exact lt_of_le_of_lt hfired hlt

/-- C1 counterexample: the offset-1 job of a monthly reminder with day 15
fires on the 14th at 07:35; the callback re-installs the offset-1 job at
exactly that same instant (the still-upcoming occurrence minus one day),
which is not strictly later than the instant that just fired. -/
theorem claim_C1_counterexample :
    (sendReminderJob ⟨[], []⟩
        ⟨1, 7, "electricity", some 15, "07:35", "monthly", "Asia/Ho_Chi_Minh", true, none⟩
        1 true ⟨2025, 6, 14, 7, 35, 0⟩).registry =
      [⟨reminderJobId 1 1, .date ⟨2025, 6, 14, 7, 35, 0⟩ "Asia/Ho_Chi_Minh"⟩] ∧
    ¬ (DT.lin ⟨2025, 6, 14, 7, 35, 0⟩ < DT.lin ⟨2025, 6, 14, 7, 35, 0⟩) := by
  exact ⟨rfl, by omega⟩

/-- C1 witness: offset 0 of a concrete monthly reminder fired exactly at its
occurrence instant is re-installed at the next month's occurrence, strictly
later. -/
theorem claim_C1_witness :
    ∃ e, computeNextMonthEvent
        ⟨2, 7, "water", some 15, "07:35", "monthly", "Asia/Ho_Chi_Minh", true, none⟩
        ⟨2025, 6, 15, 7, 35, 0⟩ = Except.ok e ∧
      (sendReminderJob ⟨[], []⟩
          ⟨2, 7, "water", some 15, "07:35", "monthly", "Asia/Ho_Chi_Minh", true, none⟩
          0 true ⟨2025, 6, 15, 7, 35, 0⟩).registry.filter
          (fun j => j.key == reminderJobId 2 0) =
        [⟨reminderJobId 2 0, .date (e.subDays 0) "Asia/Ho_Chi_Minh"⟩] ∧
      (0 = 0 → DT.lin ⟨2025, 6, 15, 7, 35, 0⟩ < (e.subDays 0).lin) :=
  claim_C1 ⟨[], []⟩
    ⟨2, 7, "water", some 15, "07:35", "monthly", "Asia/Ho_Chi_Minh", true, none⟩
    0 ⟨2025, 6, 15, 7, 35, 0⟩ ⟨2025, 6, 15, 7, 35, 0⟩ rfl (by decide)
    (fun d hd => by cases hd; omega) (by decide) (le_refl _)

/-- C2 (code_bug): a `once` reminder for day 31 scheduled on 31 January
after 07:35 (the day exists in January, the candidate instant has passed)
should, per the claim, get its on-time job on 28 February; instead
`run_date.replace(month=2)` raises `ValueError` before the clamp, the
outer handler catches it, and no job at all is installed. -/
theorem claim_C2 :
    computeOnceRunDate
        ⟨21, 7, "rent", some 31, "07:35", "once", "Asia/Ho_Chi_Minh", true, none⟩
        ⟨2025, 1, 31, 8, 0, 0⟩ = none ∧
    scheduleSingleReminder []
        ⟨21, 7, "rent", some 31, "07:35", "once", "Asia/Ho_Chi_Minh", true, none⟩
        ⟨2025, 1, 31, 8, 0, 0⟩ = [] :=
  ⟨rfl, rfl⟩

/-- C3 (code_bug): for a `once` reminder with day 31 scheduled in April the
claimed clamp to 30 April never happens — `now.replace(day=31)` raises on
line 791, the outer handler catches it, and no job is installed; the
monthly next-occurrence computation, by contrast, does clamp to 30 April
as the claim says. -/
theorem claim_C3 :
    computeOnceRunDate
        ⟨22, 7, "internet", some 31, "07:35", "once", "Asia/Ho_Chi_Minh", true, none⟩
        ⟨2025, 4, 10, 9, 0, 0⟩ = none ∧
    scheduleSingleReminder []
        ⟨22, 7, "internet", some 31, "07:35", "once", "Asia/Ho_Chi_Minh", true, none⟩
        ⟨2025, 4, 10, 9, 0, 0⟩ = [] ∧
    computeNextMonthEvent
        ⟨23, 7, "gas", some 31, "07:35", "monthly", "Asia/Ho_Chi_Minh", true, none⟩
        ⟨2025, 4, 10, 9, 0, 0⟩ = Except.ok ⟨2025, 4, 30, 7, 35, 0⟩ :=
  ⟨rfl, rfl, rfl⟩

/-- C6 (confirmed): a sleep request — whether from the window-end clock
event (`reason = "schedule"`) or the inactivity timeout
(`reason = "timeout"`) — issued while the wall clock is inside the daily
active window leaves the polling state untouched; a sleep request while
the loop is already stopped is likewise a no-op. -/
theorem claim_C6 (debugAlwaysOn : Bool) (st : PollState) (now : DT) (reason : String)
    (h : inActiveWindow now = true ∨ st.running = false) :
    stopPollingIfNeeded debugAlwaysOn st now reason = st := by
  unfold stopPollingIfNeeded
  rcases h with h | h
  · have ha : isActiveHours debugAlwaysOn now = true := by
      unfold isActiveHours
      split
      · rfl
      · exact h
    by_cases hr : st.running
    · simp [hr, ha]
    · simp [hr]
  · simp [h]

/-- C6 witness: the inactivity-timeout sleep request at 07:35 (inside the
07:30-07:40 window) with the loop running leaves the state unchanged. -/
theorem claim_C6_witness :
    stopPollingIfNeeded false ⟨true, none⟩ ⟨2025, 6, 15, 7, 35, 0⟩ "timeout" =
      ⟨true, none⟩ :=
  claim_C6 false ⟨true, none⟩ ⟨2025, 6, 15, 7, 35, 0⟩ "timeout" (Or.inl (by decide))

/-- C8 (code_bug): an unrecognised timezone is not always replaced by the
fallback — `_compute_next_month_event` raises `UnknownTimeZoneError`, so
for a monthly reminder only the offset-0 cron job is installed (the two
pre-due offset jobs are skipped), the due-today evaluation returns `false`
unconditionally, and for a `once` reminder the raw timezone string handed
to `DateTrigger` makes the whole scheduling raise, leaving zero jobs. -/
theorem claim_C8 :
    computeNextMonthEvent
        ⟨31, 7, "net", some 15, "07:35", "monthly", "Mars/Olympus", true, none⟩
        ⟨2025, 6, 10, 9, 0, 0⟩ = Except.error "UnknownTimeZoneError" ∧
    (scheduleSingleReminder []
        ⟨31, 7, "net", some 15, "07:35", "monthly", "Mars/Olympus", true, none⟩
        ⟨2025, 6, 10, 9, 0, 0⟩).map Job.key = [reminderJobId 31 0] ∧
    reminderDueToday
        ⟨31, 7, "net", some 15, "07:35", "monthly", "Mars/Olympus", true, none⟩
        ⟨2025, 6, 14, 7, 35, 0⟩ = false ∧
    scheduleSingleReminder []
        ⟨32, 7, "net", some 15, "07:35", "once", "Mars/Olympus", true, none⟩
        ⟨2025, 6, 10, 9, 0, 0⟩ = [] :=
  ⟨rfl, rfl, by decide, rfl⟩

/-- C9 (confirmed): `edit_reminder`, `delete_reminder` and `toggle_reminder`
all return `False` and leave the store untouched when the reminder id is
absent or owned by a different user. -/
theorem claim_C9 (store : Store) (uid : Int) (rid : Nat) (updates : Updates)
    (h : dbGetReminder store rid = none ∨
      ∃ r, dbGetReminder store rid = some r ∧ r.user_id ≠ uid) :
    managerEditReminder store uid rid updates = (store, false) ∧
    managerDeleteReminder store uid rid = (store, false) ∧
    managerToggleReminder store uid rid = (store, false) := by
  unfold managerEditReminder managerDeleteReminder managerToggleReminder
  rcases h with h | ⟨r, hr, hu⟩
  · rw [h]
    exact ⟨rfl, rfl, rfl⟩
  · rw [hr]
    simp [hu]

/-- C9 witness: a concrete store with reminder 1 owned by user 5; caller 9
gets `False` from all three operations, reminder 2 does not exist. -/
theorem claim_C9_witness :
    managerEditReminder [⟨1, 5, "rent", some 3, "07:35", "once", "UTC", true, none⟩]
        9 1 Updates.nothing =
      ([⟨1, 5, "rent", some 3, "07:35", "once", "UTC", true, none⟩], false) ∧
    managerDeleteReminder [⟨1, 5, "rent", some 3, "07:35", "once", "UTC", true, none⟩]
        9 1 =
      ([⟨1, 5, "rent", some 3, "07:35", "once", "UTC", true, none⟩], false) ∧
    managerToggleReminder [⟨1, 5, "rent", some 3, "07:35", "once", "UTC", true, none⟩]
        9 1 =
      ([⟨1, 5, "rent", some 3, "07:35", "once", "UTC", true, none⟩], false) :=
  claim_C9 [⟨1, 5, "rent", some 3, "07:35", "once", "UTC", true, none⟩] 9 1
    Updates.nothing
    (Or.inr ⟨⟨1, 5, "rent", some 3, "07:35", "once", "UTC", true, none⟩, by decide, by decide⟩)

/-- C10 (corrected): `edit_reminder` returns `False` and issues no store
update whenever the updates carry a time value rejected by
`_validate_time`, or a frequency outside `once`/`daily`/`weekly` — in
particular `monthly`, which creation nevertheless accepts without
validation (third conjunct).  Every plain in-range `hour:minute` string is
accepted (second conjunct), but `_validate_time` also accepts strings that
are not of that plain form — Python's `int()` tolerates a sign,
whitespace, underscore digit separators (PEP 515) and non-ASCII decimal
digits — so the claim's "not of the form hour:minute implies rejection"
fails, see the counterexample. -/
theorem claim_C10 (store : Store) (uid : Int) (rid : Nat) (updates : Updates)
    (h : (∃ t, updates.time = some t ∧ validateTime t = false) ∨
      (∃ f, updates.frequency = some f ∧ f ∉ (["once", "daily", "weekly"] : List String))) :
    managerEditReminder store uid rid updates = (store, false) ∧
    (∀ t, SpecTimeOk t → validateTime t = true) ∧
    (dbGetReminder (dbCreateReminder [] 7 ⟨"pay rent", some 5, "07:35", "monthly", "UTC"⟩).1
        (dbCreateReminder [] 7 ⟨"pay rent", some 5, "07:35", "monthly", "UTC"⟩).2).map
      Reminder.frequency = some "monthly" := by
  refine ⟨?_, ?_, by decide⟩
  · unfold managerEditReminder
    cases hg : dbGetReminder store rid with
    | none => rfl
    | some r =>
      dsimp only
      by_cases hu : r.user_id ≠ uid
      · simp [hu]
      · rcases h with ⟨t, ht, hv⟩ | ⟨f, hf, hbad⟩
        · simp [hu, ht, hv]
        · rw [if_neg hu]
          split
          · rfl
          · simp [hf, hbad]
  · intro t hst
    unfold SpecTimeOk at hst
    unfold validateTime
    cases hsp : pySplit ':' t.data with
    | nil =>
      rw [hsp] at hst
      dsimp only at hst
    | cons a l =>
      cases l with
      | nil =>
        rw [hsp] at hst
        dsimp only at hst
      | cons b l2 =>
        cases l2 with
        | nil =>
          rw [hsp] at hst
          dsimp only at hst
          obtain ⟨h1, h2, h3, h4, h5, h6⟩ := hst
          dsimp only
          rw [pyIntParse_all_digits h1 h2, pyIntParse_all_digits h3 h4]
          dsimp only
          simp only [decide_eq_true_eq]
          omega
        | cons c l3 =>
          rw [hsp] at hst
          dsimp only at hst

/-- C10 counterexample: `"0_7:35"` is not of the plain `hour:minute` form,
yet `int("0_7")` parses to 7 via PEP 515 underscore separators, so
`_validate_time` accepts it and `edit_reminder` performs the store update
and returns `True` — refuting "returns False and issues no store update
whenever the time is not of the form hour:minute". -/
theorem claim_C10_counterexample :
    ¬ SpecTimeOk "0_7:35" ∧
    validateTime "0_7:35" = true ∧
    managerEditReminder [⟨1, 5, "rent", some 3, "07:35", "once", "UTC", true, none⟩]
        5 1 ⟨none, none, some "0_7:35", none, none, none⟩ =
      ([⟨1, 5, "rent", some 3, "0_7:35", "once", "UTC", true, none⟩], true) := by
  exact ⟨by decide, by decide, by decide⟩

/-- C10 witness: an out-of-range time edit and a `monthly` frequency edit
on a concrete owned reminder are both rejected with the store unchanged. -/
theorem claim_C10_witness :
    managerEditReminder [⟨1, 5, "rent", some 3, "07:35", "once", "UTC", true, none⟩]
        5 1 ⟨none, none, some "24:00", none, none, none⟩ =
      ([⟨1, 5, "rent", some 3, "07:35", "once", "UTC", true, none⟩], false) ∧
    managerEditReminder [⟨1, 5, "rent", some 3, "07:35", "once", "UTC", true, none⟩]
        5 1 ⟨none, none, none, some "monthly", none, none⟩ =
      ([⟨1, 5, "rent", some 3, "07:35", "once", "UTC", true, none⟩], false) :=
  ⟨(claim_C10 [⟨1, 5, "rent", some 3, "07:35", "once", "UTC", true, none⟩] 5 1
      ⟨none, none, some "24:00", none, none, none⟩
      (Or.inl ⟨"24:00", rfl, by decide⟩)).1,
    (claim_C10 [⟨1, 5, "rent", some 3, "07:35", "once", "UTC", true, none⟩] 5 1
      ⟨none, none, none, some "monthly", none, none⟩
      (Or.inr ⟨"monthly", rfl, by decide⟩)).1⟩

/-- C5 (confirmed): firing offset 0 of a `once` reminder with a successful
send deletes the reminder row from the store and removes every job whose
key starts with the reminder's prefix, so no jobs remain for it and it is
absent from subsequent active-reminder listings.  (`huniq`: reminder ids
occur at most once, as `_get_next_reminder_id` assigns them.) -/
theorem claim_C5 (st : BotState) (r : Reminder) (now : DT)
    (hfreq : r.frequency = "once")
    (huniq : st.store.countP (fun x => x.id == r.id) ≤ 1) :
    ((sendReminderJob st r 0 true now).registry.filter
        (fun j => strStartsWith j.key (reminderKeyBase r.id))).length = 0 ∧
    ∀ x ∈ dbGetAllActiveReminders (sendReminderJob st r 0 true now).store,
      x.id ≠ r.id := by
  have hst : sendReminderJob st r 0 true now =
      { store := (dbDeleteReminder (dbUpdateReminder st.store r.id
            { Updates.nothing with lastSent := some "now" }).1 r.id).1,
        registry := st.registry.filter
          (fun j => !strStartsWith j.key (reminderKeyBase r.id)) } := by
    unfold sendReminderJob
    rw [hfreq]
    simp
  rw [hst]
  constructor
  · rw [List.length_eq_zero]
    apply List.filter_eq_nil_iff.mpr
    intro a ha
    have h2 := (List.mem_filter.mp ha).2
    simp only [Bool.not_eq_true'] at h2
    simp [h2]
  · intro x hx
    unfold dbGetAllActiveReminders at hx
    exact store_update_delete_id_ne _ st.store huniq x ((List.mem_filter.mp hx).1)

/-- C5 witness: a concrete once reminder with three pending jobs, fired at
offset 0 with a successful send. -/
theorem claim_C5_witness :
    ((sendReminderJob
        ⟨[⟨4, 7, "tax", some 20, "07:35", "once", "UTC", true, none⟩],
          [⟨reminderJobId 4 0, .date ⟨2025, 6, 20, 7, 35, 0⟩ "UTC"⟩,
            ⟨reminderJobId 4 1, .date ⟨2025, 6, 19, 7, 35, 0⟩ "UTC"⟩,
            ⟨reminderJobId 4 2, .date ⟨2025, 6, 18, 7, 35, 0⟩ "UTC"⟩]⟩
        ⟨4, 7, "tax", some 20, "07:35", "once", "UTC", true, none⟩ 0 true
        ⟨2025, 6, 20, 7, 35, 0⟩).registry.filter
        (fun j => strStartsWith j.key (reminderKeyBase 4))).length = 0 ∧
    ∀ x ∈ dbGetAllActiveReminders (sendReminderJob
        ⟨[⟨4, 7, "tax", some 20, "07:35", "once", "UTC", true, none⟩],
          [⟨reminderJobId 4 0, .date ⟨2025, 6, 20, 7, 35, 0⟩ "UTC"⟩,
            ⟨reminderJobId 4 1, .date ⟨2025, 6, 19, 7, 35, 0⟩ "UTC"⟩,
            ⟨reminderJobId 4 2, .date ⟨2025, 6, 18, 7, 35, 0⟩ "UTC"⟩]⟩
        ⟨4, 7, "tax", some 20, "07:35", "once", "UTC", true, none⟩ 0 true
        ⟨2025, 6, 20, 7, 35, 0⟩).store, x.id ≠ 4 :=
  claim_C5
    ⟨[⟨4, 7, "tax", some 20, "07:35", "once", "UTC", true, none⟩],
      [⟨reminderJobId 4 0, .date ⟨2025, 6, 20, 7, 35, 0⟩ "UTC"⟩,
        ⟨reminderJobId 4 1, .date ⟨2025, 6, 19, 7, 35, 0⟩ "UTC"⟩,
        ⟨reminderJobId 4 2, .date ⟨2025, 6, 18, 7, 35, 0⟩ "UTC"⟩]⟩
    ⟨4, 7, "tax", some 20, "07:35", "once", "UTC", true, none⟩
    ⟨2025, 6, 20, 7, 35, 0⟩ rfl (by decide)

/-- C7 (confirmed): a probe tick with the loop stopped that observes items
performs exactly one SLEEPING to ACTIVE transition and advances the cursor
to the newest observed item id (positive, per the Telegram API); a tick
that finds the loop running, or observes nothing, changes nothing; and a
tick whose cursor already covers every pending item observes nothing, so
the same item is never reported twice. -/
theorem claim_C7 (debugAlwaysOn : Bool) (st : PollState) (world : List Nat) (now : DT)
    (hpos : ∀ i ∈ world, 1 ≤ i) :
    (isActiveHours debugAlwaysOn now = false → st.running = false →
      ∀ lastId, (peekUpdatesJob debugAlwaysOn st world now).2.1.getLast? = some lastId →
        (peekUpdatesJob debugAlwaysOn st world now).2.2 = 1 ∧
        (peekUpdatesJob debugAlwaysOn st world now).1 = ⟨true, some lastId⟩ ∧
        1 ≤ lastId) ∧
    (st.running = true → peekUpdatesJob debugAlwaysOn st world now = (st, [], 0)) ∧
    ((peekUpdatesJob debugAlwaysOn st world now).2.1 = [] →
      peekUpdatesJob debugAlwaysOn st world now = (st, [], 0)) ∧
    (∀ c, st.running = false → st.peekOffset = some c → 1 ≤ c →
      (∀ i ∈ world, i ≤ c) → peekUpdatesJob debugAlwaysOn st world now = (st, [], 0)) := by
  by_cases hact : isActiveHours debugAlwaysOn now = true
  · unfold peekUpdatesJob
    rw [if_pos hact]
    exact ⟨fun hf => absurd hact (by simp [hf]), fun _ => rfl, fun _ => rfl,
      fun c _ _ _ _ => rfl⟩
  · unfold peekUpdatesJob
    rw [if_neg hact]
    by_cases hrun : st.running = true
    · rw [if_pos hrun]
      exact ⟨fun _ hf => absurd hrun (by simp [hf]), fun _ => rfl, fun _ => rfl,
        fun c hf _ _ _ => absurd hrun (by simp [hf])⟩
    · rw [if_neg hrun]
      dsimp only
      cases hlast : (getUpdatesPeek world (match st.peekOffset with
          | some k => if k = 0 then none else some (k + 1)
          | none => none)).getLast? with
      | none =>
        refine ⟨fun _ _ lastId hl => by simp at hl, fun _ => rfl, fun _ => rfl,
          fun c _ _ _ _ => rfl⟩
      | some lastId =>
        unfold startPollingIfNeeded
        dsimp only
        rw [if_neg hrun]
        dsimp only
        refine ⟨?_, ?_, ?_, ?_⟩
        · intro _ _ lid hl
          rw [hlast] at hl
          injection hl with hl
          subst hl
          exact ⟨rfl, rfl, hpos _ (getLast_getUpdatesPeek_mem hlast)⟩
        · intro hf
          exact absurd hf hrun
        · intro hemp
          rw [hemp] at hlast
          simp at hlast
        · intro c hcr hcur hc1 hcov
          have hoff : (match st.peekOffset with
              | some k => if k = 0 then none else some (k + 1)
              | none => none) = some (c + 1) := by
            rw [hcur]
            dsimp only
            rw [if_neg (by omega)]
          rw [hoff] at hlast
          have hnil : getUpdatesPeek world (some (c + 1)) = [] := by
            unfold getUpdatesPeek
            dsimp only
            have hfil : world.filter (fun i => c + 1 ≤ i) = [] :=
              List.filter_eq_nil_iff.mpr (fun a ha => by
                simp only [decide_eq_true_eq]
                have := hcov a ha
                omega)
            rw [hfil]
          rw [hnil] at hlast
          simp at hlast

/-- C7 witness: a stopped loop with one pending item (id 5) wakes exactly
once and moves the cursor to 5; a running loop and a covered cursor are
no-ops. -/
theorem claim_C7_witness :
    (peekUpdatesJob false ⟨false, none⟩ [5] ⟨2025, 6, 14, 8, 0, 0⟩).2.2 = 1 ∧
    (peekUpdatesJob false ⟨false, none⟩ [5] ⟨2025, 6, 14, 8, 0, 0⟩).1 = ⟨true, some 5⟩ ∧
    peekUpdatesJob false ⟨true, some 5⟩ [5] ⟨2025, 6, 14, 8, 0, 0⟩ =
      (⟨true, some 5⟩, [], 0) ∧
    peekUpdatesJob false ⟨false, some 5⟩ [5] ⟨2025, 6, 14, 8, 0, 0⟩ =
      (⟨false, some 5⟩, [], 0) := by
  have h1 := claim_C7 false ⟨false, none⟩ [5] ⟨2025, 6, 14, 8, 0, 0⟩ (by decide)
  have h2 := claim_C7 false ⟨true, some 5⟩ [5] ⟨2025, 6, 14, 8, 0, 0⟩ (by decide)
  have h3 := claim_C7 false ⟨false, some 5⟩ [5] ⟨2025, 6, 14, 8, 0, 0⟩ (by decide)
  obtain ⟨q1, q2, -⟩ := h1.1 (by decide) rfl 5 (by decide)
  exact ⟨q1, q2, h2.2.1 rfl, h3.2.2.2 5 rfl rfl (by decide) (by decide)⟩

theorem count_one_add (reg : Registry) (rid : Nat) (t0 : Trigger)
    (hclean : ∀ j ∈ reg, strStartsWith j.key (reminderKeyBase rid) = false) :
    ((addJobReplace reg ⟨reminderJobId rid 0, t0⟩).filter
      (fun j => strStartsWith j.key (reminderKeyBase rid))).length = 1 := by
  rw [filter_add_fresh _ (fun x hx => clean_key_ne hclean hx 0) (jobId_startsWith rid 0),
    filter_clean_nil hclean]
  simp

/-- C4 (corrected): after `schedule_one`, a registry previously holding no
jobs of the reminder holds exactly one key for `daily`/`weekly`; exactly
three keys for `monthly` (recognised timezone, positive day); and for
`once` exactly three keys when the date computation succeeds — but zero
keys when it raises (target day absent from the current month, or the
rolled-over date invalid), see the counterexample. -/
theorem claim_C4 (reg : Registry) (r : Reminder) (now : DT)
    (hclean : ∀ j ∈ reg, strStartsWith j.key (reminderKeyBase r.id) = false)
    (htz : ianaKnown r.timezone = true)
    (hday : ∀ d, r.day = some d → 1 ≤ d)
    (hval : now.Valid) :
    ((r.frequency = "daily" ∨ r.frequency = "weekly") →
      ((scheduleSingleReminder reg r now).filter
          (fun j => strStartsWith j.key (reminderKeyBase r.id))).length = 1) ∧
    (r.frequency = "monthly" →
      ((scheduleSingleReminder reg r now).filter
          (fun j => strStartsWith j.key (reminderKeyBase r.id))).length = 3) ∧
    (r.frequency = "once" →
      (computeOnceRunDate r now ≠ none →
        ((scheduleSingleReminder reg r now).filter
            (fun j => strStartsWith j.key (reminderKeyBase r.id))).length = 3) ∧
      (computeOnceRunDate r now = none →
        ((scheduleSingleReminder reg r now).filter
            (fun j => strStartsWith j.key (reminderKeyBase r.id))).length = 0)) := by
  have hcl3 : ∀ j ∈ removeJob (removeJob (removeJob reg (reminderJobId r.id 0))
      (reminderJobId r.id 1)) (reminderJobId r.id 2),
      strStartsWith j.key (reminderKeyBase r.id) = false :=
    fun j hj => hclean j (mem_removeJob (mem_removeJob (mem_removeJob hj)))
  refine ⟨?_, ?_, ?_⟩
  · rintro (hf | hf)
    · have h1 : scheduleSingleReminder reg r now =
          addJobReplace (removeJob (removeJob (removeJob reg (reminderJobId r.id 0))
              (reminderJobId r.id 1)) (reminderJobId r.id 2))
            ⟨reminderJobId r.id 0, .cron 7 35 none none r.timezone⟩ := by
        unfold scheduleSingleReminder
        rw [hf]
        simp [htz, notify_hm]
      rw [h1]
      exact count_one_add _ _ _ hcl3
    · have h1 : scheduleSingleReminder reg r now =
          addJobReplace (removeJob (removeJob (removeJob reg (reminderJobId r.id 0))
              (reminderJobId r.id 1)) (reminderJobId r.id 2))
            ⟨reminderJobId r.id 0, .cron 7 35 (some 0) none r.timezone⟩ := by
        unfold scheduleSingleReminder
        rw [hf]
        simp [htz, notify_hm]
      rw [h1]
      exact count_one_add _ _ _ hcl3
  · intro hf
    obtain ⟨e, he, -⟩ := computeNextMonthEvent_ok htz hday hval
    have hfresh1 : ∀ x ∈ addJobReplace (removeJob (removeJob (removeJob reg
        (reminderJobId r.id 0)) (reminderJobId r.id 1)) (reminderJobId r.id 2))
        ⟨reminderJobId r.id 0, .cron 7 35 none r.day r.timezone⟩,
        x.key ≠ reminderJobId r.id 1 := by
      intro x hx
      rcases mem_addJobReplace hx with h | rfl
      · exact clean_key_ne hcl3 h 1
      · exact jobId_ne_01 r.id
    have hfresh2 : ∀ x ∈ addJobReplace (addJobReplace (removeJob (removeJob (removeJob reg
        (reminderJobId r.id 0)) (reminderJobId r.id 1)) (reminderJobId r.id 2))
        ⟨reminderJobId r.id 0, .cron 7 35 none r.day r.timezone⟩)
        ⟨reminderJobId r.id 1, .date (e.subDays 1) r.timezone⟩,
        x.key ≠ reminderJobId r.id 2 := by
      intro x hx
      rcases mem_addJobReplace hx with h | rfl
      · rcases mem_addJobReplace h with h2 | rfl
        · exact clean_key_ne hcl3 h2 2
        · exact jobId_ne_02 r.id
      · exact jobId_ne_12 r.id
    have h1 : scheduleSingleReminder reg r now =
        addJobReplace (addJobReplace (addJobReplace (removeJob (removeJob (removeJob reg
            (reminderJobId r.id 0)) (reminderJobId r.id 1)) (reminderJobId r.id 2))
          ⟨reminderJobId r.id 0, .cron 7 35 none r.day r.timezone⟩)
          ⟨reminderJobId r.id 1, .date (e.subDays 1) r.timezone⟩)
          ⟨reminderJobId r.id 2, .date (e.subDays 2) r.timezone⟩ := by
      unfold scheduleSingleReminder scheduleMonthly scheduleOffsetJob
      rw [hf]
      simp only [pytzTimezone, htz, if_true, notify_hm, he]
      rw [removeJob_eq_of_fresh hfresh1, removeJob_eq_of_fresh hfresh2]
      rw [if_neg (by decide : ¬("monthly" = "once")),
        if_neg (by decide : ¬("monthly" = "daily")),
        if_neg (by decide : ¬("monthly" = "weekly"))]
    rw [h1]
    exact count_three_adds _ _ _ _ _ hcl3
  · intro hf
    constructor
    · intro hsome
      cases hrd : computeOnceRunDate r now with
      | none => exact absurd hrd hsome
      | some rd =>
        have h1 : scheduleSingleReminder reg r now =
            addJobReplace (addJobReplace (addJobReplace (removeJob (removeJob (removeJob reg
                (reminderJobId r.id 0)) (reminderJobId r.id 1)) (reminderJobId r.id 2))
              ⟨reminderJobId r.id 0, .date rd r.timezone⟩)
              ⟨reminderJobId r.id 1, .date (rd.subDays 1) r.timezone⟩)
              ⟨reminderJobId r.id 2, .date (rd.subDays 2) r.timezone⟩ := by
          unfold scheduleSingleReminder scheduleOnce
          rw [hf, hrd]
          simp [pytzTimezone, htz]
        rw [h1]
        exact count_three_adds _ _ _ _ _ hcl3
    · intro hnone
      have h1 : scheduleSingleReminder reg r now =
          removeJob (removeJob (removeJob reg (reminderJobId r.id 0))
            (reminderJobId r.id 1)) (reminderJobId r.id 2) := by
        unfold scheduleSingleReminder scheduleOnce
        rw [hf, hnone]
        simp
      rw [h1]
      rw [List.length_eq_zero]
      exact filter_clean_nil hcl3

/-- C4 counterexample: a `once` reminder for day 31 scheduled in June
(a 30-day month) ends with zero job keys, not three. -/
theorem claim_C4_counterexample :
    ¬ (((scheduleSingleReminder []
        ⟨24, 7, "rent", some 31, "07:35", "once", "Asia/Ho_Chi_Minh", true, none⟩
        ⟨2025, 6, 10, 9, 0, 0⟩).filter
          (fun j => strStartsWith j.key (reminderKeyBase 24))).length = 3) := by
  decide

/-- C4 witness: concrete daily, monthly and once reminders scheduled into an
empty registry get one, three and three jobs respectively. -/
theorem claim_C4_witness :
    ((scheduleSingleReminder []
        ⟨11, 7, "pills", some 10, "07:35", "daily", "UTC", true, none⟩
        ⟨2025, 6, 10, 9, 0, 0⟩).filter
          (fun j => strStartsWith j.key (reminderKeyBase 11))).length = 1 ∧
    ((scheduleSingleReminder []
        ⟨12, 7, "rent", some 10, "07:35", "monthly", "UTC", true, none⟩
        ⟨2025, 6, 10, 9, 0, 0⟩).filter
          (fun j => strStartsWith j.key (reminderKeyBase 12))).length = 3 ∧
    ((scheduleSingleReminder []
        ⟨13, 7, "tax", some 20, "07:35", "once", "UTC", true, none⟩
        ⟨2025, 6, 10, 9, 0, 0⟩).filter
          (fun j => strStartsWith j.key (reminderKeyBase 13))).length = 3 := by
  have h1 := claim_C4 [] ⟨11, 7, "pills", some 10, "07:35", "daily", "UTC", true, none⟩
    ⟨2025, 6, 10, 9, 0, 0⟩ (by simp) (by decide) (fun d hd => by cases hd; omega) (by decide)
  have h2 := claim_C4 [] ⟨12, 7, "rent", some 10, "07:35", "monthly", "UTC", true, none⟩
    ⟨2025, 6, 10, 9, 0, 0⟩ (by simp) (by decide) (fun d hd => by cases hd; omega) (by decide)
  have h3 := claim_C4 [] ⟨13, 7, "tax", some 20, "07:35", "once", "UTC", true, none⟩
    ⟨2025, 6, 10, 9, 0, 0⟩ (by simp) (by decide) (fun d hd => by cases hd; omega) (by decide)
  exact ⟨h1.1 (Or.inl rfl), h2.2.1 rfl, (h3.2.2 rfl).1 (by decide)⟩

end Remind
